import Mathlib

/-!
Verification of the OData-MCP bridge (Go) against its specification.

This file shallowly embeds the parts of the source that the checked
claims depend on:

* `internal/utils/numeric.go` — numeric-to-string coercion
  (`ConvertNumericFieldsToStrings`, `ConvertNumericValue`,
  `ConvertToString`, `IsLikelyDecimalField`);
* `internal/client/client.go` — response parsing
  (`parseODataResponse`), key-predicate construction
  (`buildKeyPredicate`, `formatKeyValue`), and the CSRF
  fetch/retry protocol (`fetchCSRFToken`, `doRequestWithRetry`,
  `CreateEntity`);
* `internal/bridge/bridge.go` — argument extraction in the entity
  handlers (`handleEntityGet`, `handleEntityCreate`,
  `handleEntityUpdate`, `handleFunctionCall`), the verbose note in
  `generateEntitySetTools`, and the stdio JSON-RPC server
  (`handleMessage`, `categorizeError`).

Go's `interface\x7b\x7d` values produced by `encoding/json` are modelled by
`GoValue`.  JSON numbers (Go `float64`) are modelled as exact decimals
`vnum m e` denoting `m / 10^e`; for the decimal literals exercised here
Go's shortest round-trip rendering (`%g`) coincides with the decimal
rendering `renderDec` (the scientific-notation regime of `%g` for very
small or very large magnitudes is outside the inputs of every claim).
`vint` mirrors values that reach the code as Go `int`/`int32`/`int64`.
-/

/-- Model of a Go `interface\x7b\x7d` value as produced by `encoding/json`
unmarshalling (object, array, string, number, boolean, null), extended
with `vint` for integer-typed Go values passed programmatically. -/
inductive GoValue where
  | vnull
  | vbool (b : Bool)
  | vint  (i : Int)
  | vnum  (m : Int) (e : Nat)
  | vstr  (s : String)
  | varr  (xs : List GoValue)
  | vobj  (fs : List (String × GoValue))
deriving Repr

namespace GoValue

/-- Lookup of a field in an object's field list (Go map access). -/
def lookupField (fs : List (String × GoValue)) (k : String) : Option GoValue :=
  match fs with
  | [] => none
  | (k', v) :: rest => if k' = k then some v else lookupField rest k

end GoValue

/-- ASCII lower-casing of a string, as `strings.ToLower` behaves on the
ASCII field names appearing in the source's pattern lists. -/
def lowerStr (s : String) : String := String.mk (s.data.map Char.toLower)

/-- ASCII upper-casing of a string (`strings.ToUpper` on ASCII). -/
def upperStr (s : String) : String := String.mk (s.data.map Char.toUpper)

/-- Character-list version of `strings.HasPrefix`. -/
def chStarts : List Char → List Char → Bool
  | [], _ => true
  | _ :: _, [] => false
  | p :: ps, c :: cs => p = c && chStarts ps cs

/-- Character-list version of `strings.Contains`. -/
def chContains (hay pat : List Char) : Bool :=
  match hay with
  | [] => chStarts pat []
  | _ :: rest => chStarts pat hay || chContains rest pat

/-- String version of `strings.Contains`. -/
def strContains (hay pat : String) : Bool := chContains hay.data pat.data

/-- String version of `strings.HasSuffix`. -/
def strEnds (hay pat : String) : Bool := chStarts pat.data.reverse hay.data.reverse

/-- String version of `strings.HasPrefix`. -/
def strStarts (hay pat : String) : Bool := chStarts pat.data hay.data

/-- Decimal digit character (`'0'` … `'9'`; arguments above nine never
arise, the catch-all keeps the function total). -/
def digitChar : Nat → Char
  | 0 => '0'
  | 1 => '1'
  | 2 => '2'
  | 3 => '3'
  | 4 => '4'
  | 5 => '5'
  | 6 => '6'
  | 7 => '7'
  | 8 => '8'
  | _ => '9'

/-- Digit accumulation for rendering a natural number, most significant
digit first; `fuel` bounds the recursion. -/
def natDigitsAux : Nat → Nat → List Char → List Char
  | 0, _, acc => acc
  | fuel + 1, n, acc =>
      if n = 0 then acc else natDigitsAux fuel (n / 10) (digitChar (n % 10) :: acc)

/-- Decimal digits of a natural number (`"0"` for zero). -/
def natDigits (n : Nat) : List Char :=
  if n = 0 then ['0'] else natDigitsAux (n + 1) n []

/-- Decimal rendering of a natural number. -/
def natStr (n : Nat) : String := String.mk (natDigits n)

/-- Decimal rendering of an integer (Go `%d`). -/
def intStr (i : Int) : String :=
  if i < 0 then String.mk ('-' :: natDigits i.natAbs) else natStr i.natAbs

/-- Left-pads a digit list with `'0'` up to width `w`. -/
def padZeros (w : Nat) (ds : List Char) : List Char :=
  List.replicate (w - ds.length) '0' ++ ds

/-- Strips trailing decimal zeros from a scaled decimal `m / 10^e`
(Go float64 values carry no trailing-zero information). -/
def normDec : Int → Nat → Int × Nat
  | m, 0 => (m, 0)
  | m, e + 1 => if m % 10 = 0 then normDec (m / 10) e else (m, e + 1)

/-- Plain decimal rendering of `m / 10^e`, the behaviour of Go's `%g`
verb on the (non-scientific-notation) magnitudes used by the claims:
integer part, `'.'`, fraction with trailing zeros removed. -/
def renderDec (m : Int) (e : Nat) : String :=
  let p := normDec m e
  if p.2 = 0 then intStr p.1
  else
    let a := p.1.natAbs
    let ip := a / 10 ^ p.2
    let fp := a % 10 ^ p.2
    (if p.1 < 0 then "-" else "") ++ natStr ip ++ "." ++
      String.mk (padZeros p.2 (natDigits fp))

/-- Whether the Go float64 `m / 10^e` is a whole number
(`f == float64(int64(f))` in `ConvertToString`). -/
def decIsWhole (m : Int) (e : Nat) : Bool := m % (10 ^ e : Nat) = 0

mutual

/-- Rendering used by `fmt.Sprintf` `%v` for the non-scalar default
cases of the source's type switches (none of the claims exercise it;
it is kept executable and deterministic). -/
def goVerbRender : GoValue → String
  | .vnull => "<nil>"
  | .vbool b => if b then "true" else "false"
  | .vint i => intStr i
  | .vnum m e => renderDec m e
  | .vstr s => s
  | .varr xs => "[" ++ String.intercalate " " (goVerbRenderList xs) ++ "]"
  | .vobj fs => "map[" ++ String.intercalate " " (goVerbRenderFields fs) ++ "]"
termination_by v => sizeOf v
decreasing_by all_goals (simp_wf <;> omega)

/-- Element-wise `%v` rendering of an array. -/
def goVerbRenderList : List GoValue → List String
  | [] => []
  | x :: rest => goVerbRender x :: goVerbRenderList rest
termination_by xs => sizeOf xs
decreasing_by all_goals (simp_wf <;> omega)

/-- Field-wise `key:value` rendering of a map, as `%v` prints Go maps. -/
def goVerbRenderFields : List (String × GoValue) → List String
  | [] => []
  | (k, v) :: rest => (k ++ ":" ++ goVerbRender v) :: goVerbRenderFields rest
termination_by fs => sizeOf fs
decreasing_by all_goals (simp_wf <;> omega)

end

/-- Embedding of `utils.ConvertToString` (numeric.go:63-104): nil
becomes `""`, strings pass through, integer kinds render with `%d`,
floats render `%.0f` when whole and `%g` otherwise, booleans render
`%t`, anything else falls back to `%v`. -/
def ConvertToString : GoValue → String
  | .vnull => ""
  | .vstr s => s
  | .vint i => intStr i
  | .vnum m e => if decIsWhole m e then intStr (m / (10 ^ e : Nat)) else renderDec m e
  | .vbool b => if b then "true" else "false"
  | v => goVerbRender v

/-- Pattern list of `utils.IsLikelyDecimalField` (numeric.go:109-128),
verbatim from the source. -/
def decimalPatterns : List String :=
  ["amount", "Amount", "AMOUNT",
   "price", "Price", "PRICE",
   "cost", "Cost", "COST",
   "value", "Value", "VALUE",
   "quantity", "Quantity", "QUANTITY",
   "qty", "Qty", "QTY",
   "rate", "Rate", "RATE",
   "percent", "Percent", "PERCENT",
   "discount", "Discount", "DISCOUNT",
   "tax", "Tax", "TAX",
   "total", "Total", "TOTAL",
   "sum", "Sum", "SUM",
   "balance", "Balance", "BALANCE",
   "weight", "Weight", "WEIGHT",
   "volume", "Volume", "VOLUME",
   "NetAmount", "GrossAmount", "TaxAmount",
   "UnitPrice", "ExtendedPrice",
   "OrderQuantity", "DeliveredQuantity"]

/-- Suffix list of `utils.IsLikelyDecimalField` (numeric.go:138). -/
def numericSuffixes : List String :=
  ["_amt", "_amount", "_qty", "_quantity", "_price", "_cost", "_value", "_total"]

/-- Embedding of `utils.IsLikelyDecimalField` (numeric.go:107-146). -/
def IsLikelyDecimalField (fieldName : String) : Bool :=
  let fieldLower := lowerStr fieldName
  decimalPatterns.any (fun pat => strContains fieldLower (lowerStr pat)) ||
  numericSuffixes.any (fun suf => strEnds fieldLower suf)

/-- Membership in the `decimalFieldSet` built at numeric.go:15-21: each
listed field is inserted verbatim, lower-cased and upper-cased, and the
incoming key is looked up exactly. -/
def inDecimalFieldSet (decimalFields : List String) (key : String) : Bool :=
  decimalFields.any fun f => key = f || key = lowerStr f || key = upperStr f

mutual

/-- Embedding of `utils.ConvertNumericFieldsToStrings` (numeric.go:11-34).
The Go map is modelled as its field list; selected fields become the
string rendering of their value, others recurse structurally. -/
def ConvertNumericFieldsToStrings (decimalFields : List String) :
    List (String × GoValue) → List (String × GoValue)
  | [] => []
  | (k, v) :: rest =>
      (if inDecimalFieldSet decimalFields k || IsLikelyDecimalField k then
        (k, .vstr (ConvertToString v))
      else
        (k, ConvertNumericValue decimalFields v)) ::
      ConvertNumericFieldsToStrings decimalFields rest
termination_by fs => sizeOf fs
decreasing_by all_goals (simp_wf <;> omega)

/-- Embedding of `utils.ConvertNumericValue` (numeric.go:37-60). -/
def ConvertNumericValue (decimalFields : List String) : GoValue → GoValue
  | .vobj fs => .vobj (ConvertNumericFieldsToStrings decimalFields fs)
  | .varr xs => .varr (ConvertNumericList decimalFields xs)
  | v => v
termination_by v => sizeOf v
decreasing_by all_goals (simp_wf <;> omega)

/-- Loop body of the array case of `utils.ConvertNumericValue`
(numeric.go:43-54): map items recurse through the map conversion,
other items through the value conversion. -/
def ConvertNumericList (decimalFields : List String) : List GoValue → List GoValue
  | [] => []
  | .vobj fs :: rest =>
      .vobj (ConvertNumericFieldsToStrings decimalFields fs) ::
      ConvertNumericList decimalFields rest
  | x :: rest =>
      ConvertNumericValue decimalFields x :: ConvertNumericList decimalFields rest
termination_by xs => sizeOf xs
decreasing_by all_goals (simp_wf <;> omega)

end

/-!
Legacy-date conversion.  The `utils` date helpers
(`ConvertODataLegacyToISO`, `ConvertDatesInResponse`, …) are exercised
by the repository's demo programs (`test_date_conversion_demo.go`) but
their defining file is not among the provided sources; they are
modelled from the spec below.
-/

/-- Splits off the longest leading run of decimal digits. -/
def takeDigits : List Char → List Char × List Char
  | [] => ([], [])
  | c :: rest =>
      if 48 ≤ c.toNat ∧ c.toNat ≤ 57 then
        let p := takeDigits rest
        (c :: p.1, p.2)
      else ([], c :: rest)

/-- Numeric value of a list of decimal digit characters. -/
def digitsToNat (ds : List Char) : Nat :=
  ds.foldl (fun acc c => acc * 10 + (c.toNat - 48)) 0

/-- Modelled from the spec: the millisecond payload of a legacy date,
given the characters after the literal lead-in. Accepts
`<ms>)/` and `<ms>±hhmm)/`, with an optional leading minus sign on the
milliseconds; anything else is rejected. -/
def parseLegacyInner (cs : List Char) : Option Int :=
  let sgn : Bool × List Char :=
    match cs with
    | '-' :: t => (true, t)
    | _ => (false, cs)
  let p := takeDigits sgn.2
  if p.1 = [] then none
  else
    let ms : Int := if sgn.1 then -(digitsToNat p.1 : Int) else (digitsToNat p.1 : Int)
    match p.2 with
    | [')', '/'] => some ms
    | c :: t =>
        if c = '+' ∨ c = '-' then
          let q := takeDigits t
          if q.1.length = 4 then
            match q.2 with
            | [')', '/'] => some ms
            | _ => none
          else none
        else none
    | _ => none

/-- Modelled from the spec: recognition of `/Date(<ms>[±hhmm])/` by its
literal lead-in, on the character list of a string. -/
def legacyParseList (l : List Char) : Option Int :=
  if chStarts ['/', 'D', 'a', 't', 'e', '('] l then parseLegacyInner (l.drop 6)
  else none

/-- Modelled from the spec: recognition of a legacy-date string. -/
def legacyParse (s : String) : Option Int := legacyParseList s.data

/-- Two-digit zero-padded field. -/
def pad2 (n : Nat) : List Char := padZeros 2 (natDigits n)

/-- Three-digit zero-padded field. -/
def pad3 (n : Nat) : List Char := padZeros 3 (natDigits n)

/-- Year field, zero-padded to four digits, `'-'`-signed when negative. -/
def yearChars (y : Int) : List Char :=
  if y < 0 then '-' :: padZeros 4 (natDigits y.natAbs)
  else padZeros 4 (natDigits y.natAbs)

/-- Civil date from a day count relative to 1970-01-01 (proleptic
Gregorian), yielding `(year, month, day)`. -/
def civilFromDays (days : Int) : Int × Nat × Nat :=
  let z := days + 719468
  let era := z.fdiv 146097
  let doe := (z - era * 146097).toNat
  let yoe := (doe - doe / 1460 + doe / 36524 - doe / 146096) / 365
  let doy := doe - (365 * yoe + yoe / 4 - yoe / 100)
  let mp := (5 * doy + 2) / 153
  let d := doy - (153 * mp + 2) / 5 + 1
  let m := if mp < 10 then mp + 3 else mp - 9
  let y : Int := (yoe : Int) + era * 400 + (if m ≤ 2 then 1 else 0)
  (y, m, d)

/-- Day count (relative to the epoch) of an epoch-millisecond instant. -/
def isoDays (ms : Int) : Int := (ms.fdiv 1000).fdiv 86400

/-- Second of day of an epoch-millisecond instant. -/
def isoSod (ms : Int) : Nat := (ms.fdiv 1000 - isoDays ms * 86400).toNat

/-- Millisecond remainder of an epoch-millisecond instant. -/
def isoMsRem (ms : Int) : Nat := (ms - ms.fdiv 1000 * 1000).toNat

/-- Modelled from the spec: the ISO-8601 UTC rendering of an epoch
instant given in milliseconds, `YYYY-MM-DDTHH:MM:SS[.mmm]Z`, with the
fractional part omitted when the instant is on a whole second. -/
def isoChars (ms : Int) : List Char :=
  yearChars (civilFromDays (isoDays ms)).1 ++
    '-' :: pad2 (civilFromDays (isoDays ms)).2.1 ++
    '-' :: pad2 (civilFromDays (isoDays ms)).2.2 ++
    'T' :: pad2 (isoSod ms / 3600) ++
    ':' :: pad2 (isoSod ms % 3600 / 60) ++
    ':' :: pad2 (isoSod ms % 60) ++
    (if isoMsRem ms = 0 then [] else '.' :: pad3 (isoMsRem ms)) ++ ['Z']

/-- Modelled from the spec: `utils.ConvertODataLegacyToISO` — a string
of the form `/Date(<ms>[±hhmm])/` is rewritten to the ISO-8601 UTC
instant of `<ms>`; any other string is returned unchanged. -/
def ConvertODataLegacyToISO (s : String) : String :=
  match legacyParse s with
  | some ms => String.mk (isoChars ms)
  | none => s

mutual

/-- Modelled from the spec: the inbound date rewriting recurses
structurally through maps and arrays and rewrites every string that
carries the legacy lead-in; selection is purely syntactic. -/
def ConvertDatesInValue : GoValue → GoValue
  | .vstr s => .vstr (ConvertODataLegacyToISO s)
  | .vobj fs => .vobj (ConvertDatesInFields fs)
  | .varr xs => .varr (ConvertDatesInList xs)
  | v => v
termination_by v => sizeOf v
decreasing_by all_goals (simp_wf <;> omega)

/-- Field-wise date rewriting of a map. -/
def ConvertDatesInFields : List (String × GoValue) → List (String × GoValue)
  | [] => []
  | (k, v) :: rest => (k, ConvertDatesInValue v) :: ConvertDatesInFields rest
termination_by fs => sizeOf fs
decreasing_by all_goals (simp_wf <;> omega)

/-- Element-wise date rewriting of an array. -/
def ConvertDatesInList : List GoValue → List GoValue
  | [] => []
  | x :: rest => ConvertDatesInValue x :: ConvertDatesInList rest
termination_by xs => sizeOf xs
decreasing_by all_goals (simp_wf <;> omega)

end

/-!
OData HTTP client (`internal/client/client.go`).
-/

/-- Body of an HTTP response as the client sees it: empty, bytes that
parse as the given JSON document, or bytes that are not JSON. -/
inductive HttpBody where
  | empty
  | json (v : GoValue)
  | malformed (raw : String)
deriving Repr

/-- Rendering of a body for the generic `"HTTP <status>: <body>"` error
text (JSON bodies re-rendered compactly; Go renders the original bytes,
which for the error path carries the same information). -/
def bodyText : HttpBody → String
  | .empty => ""
  | .json v => goVerbRender v
  | .malformed raw => raw

/-- Embedding of `models.ODataResponse` restricted to the fields the v2
parse path writes (`Count`, `Value`); `Context` and `NextLink` are
carried for completeness and stay empty on this path. -/
structure ODataResponse where
  context : String := ""
  count : Option Int := none
  value : Option GoValue := none
  nextLink : String := ""
deriving Repr

/-- Embedding of `fmt.Sscanf(s, "%d", &count)` as used at
client.go:668: leading optional sign then decimal digits; on a scan
failure the Go variable keeps its zero value, modelled by `none`
(the caller substitutes 0). -/
def goSscanfD (s : String) : Option Int :=
  let sgn : Bool × List Char :=
    match s.data with
    | '-' :: t => (true, t)
    | '+' :: t => (false, t)
    | l => (false, l)
  let p := (takeDigits sgn.2).1
  if p = [] then none
  else some (if sgn.1 then -(digitsToNat p : Int) else (digitsToNat p : Int))

/-- Embedding of `parseErrorFromBody` (client.go:699-711) restricted to
its generic fallback; the structured `\x7b"error": …\x7d` branch builds a
richer message via `buildDetailedError`, which no claim inspects, so
both branches are rendered through the same generic shape here and the
distinction is irrelevant to every theorem below (all of which have
status < 400). -/
def parseErrorFromBody (status : Nat) (body : HttpBody) : String :=
  "HTTP " ++ natStr status ++ ": " ++ bodyText body

/-- Embedding of `parseODataResponse` (client.go:595-686).  Status ≥ 400
is an error; an empty body is an empty response; a JSON object body is
read through the v2 `d` wrapper: a `d` payload with a `results` field
must be a collection (`results` an array, `__count` a string when
present) and normalises to `value = results` with `count` parsed from
`__count` via `Sscanf "%d"`; a `d` payload without `results` is placed
in `value` as a single entity; an object without `d` yields the empty
response; a non-object JSON body fails both unmarshal attempts.
`optimizeResponse` (client.go:764) is a no-op in the source. -/
def parseODataResponse (status : Nat) (body : HttpBody) : Except String ODataResponse :=
  if status ≥ 400 then .error (parseErrorFromBody status body)
  else
    match body with
    | .empty => .ok {}
    | .malformed _ => .error "failed to parse OData response"
    | .json v =>
        match v with
        | .vnull => .ok {}
        | .vobj fs =>
            match GoValue.lookupField fs "d" with
            | none => .ok {}
            | some dv =>
                match dv with
                | .vobj dfs =>
                    match GoValue.lookupField dfs "results" with
                    | some rv =>
                        match rv with
                        | .varr es =>
                            match GoValue.lookupField dfs "__count" with
                            | none => .ok { value := some (.varr es) }
                            | some (.vstr c) =>
                                if c = "" then .ok { value := some (.varr es) }
                                else .ok { value := some (.varr es),
                                           count := some ((goSscanfD c).getD 0) }
                            | some _ => .error "failed to parse collection response"
                        | _ => .error "failed to parse collection response"
                    | none => .ok { value := some dv }
                | _ => .ok { value := some dv }
        | _ => .error "failed to parse OData response"

/-- Embedding of `formatKeyValue` (client.go:558-573): strings are
single-quoted, integer kinds use `%d`, floating kinds use `%g`,
booleans use `%t`, anything else is `%v` in quotes. -/
def formatKeyValue : GoValue → String
  | .vstr v => "'" ++ v ++ "'"
  | .vint i => intStr i
  | .vnum m e => renderDec m e
  | .vbool b => if b then "true" else "false"
  | v => "'" ++ goVerbRender v ++ "'"

/-- Embedding of `buildKeyPredicate` (client.go:541-555).  The Go map is
modelled by its entry list *in iteration order*; Go leaves the
iteration order of a map unspecified (and actively randomises it), so
any permutation of the entries is a possible argument.  A single-entry
map renders as the bare formatted value; otherwise the entries render
as `name=value` joined with commas, in iteration order. -/
def buildKeyPredicate (entries : List (String × GoValue)) : String :=
  match entries with
  | [(_, v)] => formatKeyValue v
  | _ => String.intercalate ","
      (entries.map fun p => p.1 ++ "=" ++ formatKeyValue p.2)

/-!
CSRF fetch/retry protocol (client.go:106-266, 376-410).  HTTP exchange
is modelled operationally: a server is a transition function from its
state and a request to a new state and a response, and the client
functions thread a `World` carrying the client state, the server state
and the trace of issued requests.  Session-cookie accumulation
(client.go:218-227) does not influence which requests are issued and is
not modelled; the several case variants of the response token header
checked at client.go:234-246 are modelled by the single `csrfHeader`
response field. -/

/-- An outbound HTTP request (the fields the claims observe).  The body
is carried as the JSON document the marshalled bytes encode;
`json.Marshal` renders Go maps with keys in sorted order. -/
structure HttpRequest where
  method : String
  endpoint : String
  csrfHeader : Option String
  body : Option GoValue
deriving Repr

/-- An inbound HTTP response (status, response `X-CSRF-Token` header,
raw body text). -/
structure HttpResponse where
  status : Nat
  csrfHeader : Option String
  body : String
deriving Repr

/-- Client state: the current CSRF token (empty when absent). -/
structure ClientSt where
  csrfToken : String := ""
deriving Repr

/-- A world: client state, server state, trace of requests issued. -/
structure World (σ : Type) where
  client : ClientSt
  server : σ
  trace : List HttpRequest
deriving Repr

/-- Performs one HTTP exchange, recording the request in the trace. -/
def sendReq {σ : Type} (srv : σ → HttpRequest → σ × HttpResponse)
    (w : World σ) (req : HttpRequest) : World σ × HttpResponse :=
  let p := srv w.server req
  ({ w with server := p.1, trace := w.trace ++ [req] }, p.2)

/-- Embedding of `buildRequest` (client.go:60-104): the CSRF token
header is attached only when the client holds a non-empty token. -/
def buildRequest (c : ClientSt) (method endpoint : String) (body : Option GoValue) :
    HttpRequest :=
  { method := method, endpoint := endpoint, body := body,
    csrfHeader := if c.csrfToken ≠ "" then some c.csrfToken else none }

/-- Embedding of `fetchCSRFToken` (client.go:190-258): clear the token,
issue a GET against the service root whose `X-CSRF-Token` header is
set to `Fetch`, and adopt the response token unless it is empty or the
literal `Fetch`; the Boolean reports success (Go: nil error). -/
def fetchCSRFToken {σ : Type} (srv : σ → HttpRequest → σ × HttpResponse)
    (w : World σ) : World σ × Bool :=
  let w1 : World σ := { w with client := { csrfToken := "" } }
  let req := { buildRequest w1.client "GET" "" none with csrfHeader := some "Fetch" }
  let r := sendReq srv w1 req
  let token := r.2.csrfHeader.getD ""
  if token = "" ∨ token = "Fetch" then (r.1, false)
  else ({ r.1 with client := { csrfToken := token } }, true)

/-- The modifying methods checked at client.go:140. -/
def modifyingMethods : List String := ["POST", "PUT", "MERGE", "PATCH", "DELETE"]

/-- Case-insensitive string equality (`strings.EqualFold` on ASCII). -/
def eqFold (a b : String) : Bool := lowerStr a = lowerStr b

/-- The CSRF-failure test of client.go:156-158 on a 403 response. -/
def csrfFailedCheck (resp : HttpResponse) : Bool :=
  strContains resp.body "CSRF token validation failed" ||
  strContains (lowerStr resp.body) "csrf" ||
  eqFold (resp.csrfHeader.getD "") "required"

/-- Embedding of `doRequestWithRetry` (client.go:123-187): send the
request; on a 403 to a modifying method outside a retry, when the CSRF
signal is present, clear and refetch the token, stamp it onto the
request and retry exactly once; a failed refetch is an error; all other
responses are returned as-is.  The source's `isRetry` flag is modelled
as a remaining-retry budget (`isRetry = true` is budget `0`): with
budget 0 the 403/CSRF branch is unreachable in the source (its guard
requires `!isRetry`) and the response is returned as-is. -/
def doRequestWithRetry {σ : Type} (srv : σ → HttpRequest → σ × HttpResponse)
    (w : World σ) (req : HttpRequest) :
    Nat → World σ × Except String HttpResponse
  | 0 =>
      let r := sendReq srv w req
      (r.1, .ok r.2)
  | budget + 1 =>
      let r := sendReq srv w req
      let resp := r.2
      if resp.status = 403 ∧ modifyingMethods.contains req.method then
        if csrfFailedCheck resp then
          let f := fetchCSRFToken srv r.1
          if f.2 then
            doRequestWithRetry srv f.1
              { req with csrfHeader := some f.1.client.csrfToken } budget
          else
            (f.1, .error
              ("CSRF token required but refetch failed. Status: 403. Response: " ++
                resp.body))
        else (r.1, .ok resp)
      else (r.1, .ok resp)

/-- Byte-wise (code-point) lexicographic comparison of key strings, as
`json.Marshal` orders the keys of a Go map. -/
def keyLt : List Char → List Char → Bool
  | [], [] => false
  | [], _ :: _ => true
  | _ :: _, [] => false
  | a :: as, b :: bs =>
      if a.toNat < b.toNat then true
      else if b.toNat < a.toNat then false
      else keyLt as bs

/-- Ordered insertion of a field by key (helper of `sortFields`). -/
def insertField (p : String × GoValue) : List (String × GoValue) →
    List (String × GoValue)
  | [] => [p]
  | q :: rest =>
      if keyLt q.1.data p.1.data then q :: insertField p rest else p :: q :: rest

/-- Sorting of object fields by key, as `json.Marshal` renders Go maps. -/
def sortFields : List (String × GoValue) → List (String × GoValue)
  | [] => []
  | p :: rest => insertField p (sortFields rest)

/-- Embedding of `CreateEntity` (client.go:376-410): always fetch a
fresh CSRF token first (a failure is logged and ignored), then POST the
marshalled entity data through the retry wrapper.  The raw response is
returned; `parseODataResponse` applies to it downstream and does not
affect the request trace. -/
def CreateEntity {σ : Type} (srv : σ → HttpRequest → σ × HttpResponse)
    (w : World σ) (entitySet : String) (data : List (String × GoValue)) :
    World σ × Except String HttpResponse :=
  let f := fetchCSRFToken srv w
  let req := buildRequest f.1.client "POST" entitySet (some (.vobj (sortFields data)))
  doRequestWithRetry srv f.1 req 1

/-!
Entity handlers and tool synthesis console output
(`internal/bridge/bridge.go`).
-/

/-- The deterministic message of bridge.go:1731/1817/1843 for a missing
key property. -/
def missingKeyMsg (kp : String) : String := "missing required key property: " ++ kp

/-- Embedding of the key-extraction loop of `handleEntityGet`
(bridge.go:1726-1733), equally of `handleEntityDelete`
(bridge.go:1838-1845): walk the schema's key list and fail on the first
key property absent from the arguments. -/
def getKeysFromArgs (keyProps : List String) (args : List (String × GoValue)) :
    Except String (List (String × GoValue)) :=
  match keyProps with
  | [] => .ok []
  | kp :: rest =>
      match GoValue.lookupField args kp with
      | some v =>
          match getKeysFromArgs rest args with
          | .ok ks => .ok ((kp, v) :: ks)
          | .error e => .error e
      | none => .error (missingKeyMsg kp)

/-- Embedding of `handleEntityGet` (bridge.go:1724-1757) up to the
request it issues: key extraction happens before any HTTP call, so a
missing key yields an error and no request (the `$select`/`$expand`
options do not influence this and are omitted from the endpoint). -/
def handleEntityGetRequest (entitySetName : String) (keyProps : List String)
    (args : List (String × GoValue)) : Except String HttpRequest :=
  match getKeysFromArgs keyProps args with
  | .error e => .error e
  | .ok keys =>
      .ok { method := "GET",
            endpoint := entitySetName ++ "(" ++ buildKeyPredicate keys ++ ")",
            csrfHeader := none, body := none }

/-- First key property of the schema list that the argument map does
not provide (the verification loop of bridge.go:1815-1819). -/
def firstMissingKey (keyProps : List String) (key : List (String × GoValue)) :
    Option String :=
  match keyProps with
  | [] => none
  | kp :: rest =>
      if (GoValue.lookupField key kp).isSome then firstMissingKey rest key
      else some kp

/-- Key-name test of the update handler's argument split: not
`_method` and a schema key property. -/
def updateKeyOk (keyProps : List String) (x : String) : Bool :=
  x ≠ "_method" && keyProps.contains x

/-- Payload-name test of the update handler's argument split: not
`_method`, not a key property, not a `$` option. -/
def updateDataOk (keyProps : List String) (x : String) : Bool :=
  x ≠ "_method" && !keyProps.contains x && !strStarts x "$"

/-- Embedding of the argument split of `handleEntityUpdate`
(bridge.go:1784-1819): `_method` selects the HTTP verb (default PUT),
key properties go to the key map, remaining non-`$` arguments to the
update payload, then every schema key must be present or the handler
fails with the deterministic message before any HTTP call. -/
def handleEntityUpdateCheck (keyProps : List String)
    (args : List (String × GoValue)) :
    Except String (List (String × GoValue) × List (String × GoValue) × String) :=
  let method :=
    match GoValue.lookupField args "_method" with
    | some (.vstr m) => m
    | _ => "PUT"
  let key := args.filter fun p => updateKeyOk keyProps p.1
  let updateData := args.filter fun p => updateDataOk keyProps p.1
  match firstMissingKey keyProps key with
  | some kp => .error (missingKeyMsg kp)
  | none => .ok (key, updateData, method)

/-- Embedding of the data assembly of `handleEntityCreate`
(bridge.go:1759-1767): every argument whose name does not start with
`$` becomes entity data, with no numeric or date coercion applied. -/
def handleEntityCreateData (args : List (String × GoValue)) :
    List (String × GoValue) :=
  args.filter fun p => !strStarts p.1 "$"

/-- The JSON document marshalled as the outbound body of a create call
(bridge.go:1770 feeding client.go:385). -/
def outboundCreateBody (args : List (String × GoValue)) : GoValue :=
  .vobj (sortFields (handleEntityCreateData args))

/-- A declared function-import parameter (models.FunctionImportParameter). -/
structure FunctionImportParameter where
  name : String
  mode : String
  nullable : Bool
deriving Repr

/-- Embedding of the parameter collection of `handleFunctionCall`
(bridge.go:1858-1868): only declared In/InOut parameters are forwarded;
a missing non-nullable parameter is an error before any HTTP call. -/
def collectFunctionParams (params : List FunctionImportParameter)
    (args : List (String × GoValue)) : Except String (List (String × GoValue)) :=
  match params with
  | [] => .ok []
  | p :: rest =>
      if p.mode = "In" ∨ p.mode = "InOut" then
        match GoValue.lookupField args p.name with
        | some v =>
            match collectFunctionParams rest args with
            | .ok ps => .ok ((p.name, v) :: ps)
            | .error e => .error e
        | none =>
            if !p.nullable then .error ("missing required parameter: " ++ p.name)
            else collectFunctionParams rest args
      else collectFunctionParams rest args

/-- A write to one of the process's standard streams. -/
inductive OutEvent where
  | stdoutW (s : String)
  | stderrW (s : String)
deriving Repr

/-- Embedding of the console output of `generateEntitySetTools`
(bridge.go:999-1007): when the entity set's referenced entity type is
missing from the schema and verbose mode is on, the note is written
with `fmt.Printf` — to standard output; tool generation itself writes
nothing to the console. -/
def generateEntitySetToolsConsole (verbose : Bool) (knownEntityTypes : List String)
    (entitySetName entityTypeName : String) : List OutEvent :=
  if knownEntityTypes.contains entityTypeName then []
  else if verbose then
    [.stdoutW ("[VERBOSE] Entity type not found for entity set " ++ entitySetName ++
      ": " ++ entityTypeName ++ "\n")]
  else []

/-!
JSON-RPC stdio server (mcp server section of bridge.go, lines
1891-2315).
-/

/-- Embedding of `categorizeError` (bridge.go:2237-2298): the full
message and data blob are assembled, then the error string is matched
against the source's pattern chain; the first match decides the
JSON-RPC code, everything else is `-32603`. -/
def categorizeError (err toolName : String) : Int × String × String :=
  let fullErrorMessage := "OData MCP tool '" ++ toolName ++ "' failed: " ++ err
  let errorData := "\x7b\"tool\":\"" ++ toolName ++ "\",\"original_error\":\"" ++ err ++
    "\"\x7d"
  let code : Int :=
    if strContains err "HTTP 400" || strContains err "Bad Request" then -32602
    else if strContains err "HTTP 401" || strContains err "Unauthorized" then -32603
    else if strContains err "HTTP 403" || strContains err "Forbidden" then -32603
    else if strContains err "HTTP 404" || strContains err "Not Found" then -32602
    else if strContains err "HTTP 409" || strContains err "Conflict" then -32603
    else if strContains err "HTTP 422" || strContains err "Unprocessable" then -32602
    else if strContains err "HTTP 429" || strContains err "Too Many Requests" then -32603
    else if strContains err "HTTP 500" || strContains err "Internal Server Error" then -32603
    else if strContains err "HTTP 502" || strContains err "Bad Gateway" then -32603
    else if strContains err "HTTP 503" || strContains err "Service Unavailable" then -32603
    else if strContains err "CSRF token" then -32603
    else if strContains err "timeout" || strContains err "deadline exceeded" then -32603
    else if strContains err "connection refused" || strContains err "network" then -32603
    else if strContains err "invalid metadata" || strContains err "metadata" then -32603
    else if strContains err "invalid entity" || strContains err "entity not found" then -32602
    else -32603
  (code, fullErrorMessage, errorData)

/-- Whether an error string avoids every pattern of `categorizeError`'s
match chain, so that the default branch decides its code.  The
messages produced by the key/parameter validation of the handlers
satisfy this for ordinary property names. -/
def categorizePatternFree (s : String) : Bool :=
  !(strContains s "HTTP 400" || strContains s "Bad Request" ||
    strContains s "HTTP 401" || strContains s "Unauthorized" ||
    strContains s "HTTP 403" || strContains s "Forbidden" ||
    strContains s "HTTP 404" || strContains s "Not Found" ||
    strContains s "HTTP 409" || strContains s "Conflict" ||
    strContains s "HTTP 422" || strContains s "Unprocessable" ||
    strContains s "HTTP 429" || strContains s "Too Many Requests" ||
    strContains s "HTTP 500" || strContains s "Internal Server Error" ||
    strContains s "HTTP 502" || strContains s "Bad Gateway" ||
    strContains s "HTTP 503" || strContains s "Service Unavailable" ||
    strContains s "CSRF token" ||
    strContains s "timeout" || strContains s "deadline exceeded" ||
    strContains s "connection refused" || strContains s "network" ||
    strContains s "invalid metadata" || strContains s "metadata" ||
    strContains s "invalid entity" || strContains s "entity not found")

/-- A parsed JSON-RPC request as `handleMessage` decodes it into the
`Request` struct: `id = none` models both an absent `id` and a JSON
`null` (either leaves the Go `interface\x7b\x7d` field nil). -/
structure ParsedMsg where
  method : String
  id : Option GoValue
  params : List (String × GoValue) := []
deriving Repr

/-- What one stdin line looks like to `handleMessage`
(bridge.go:2065-2082): not valid JSON at all (the unmarshal into the
raw map fails), a JSON document that does not decode into the `Request`
struct (carrying whatever `id` the raw map had, and the decode error's
text), or a decoded request. -/
inductive InLine where
  | notJson
  | badShape (rawId : Option GoValue) (errText : String)
  | ok (m : ParsedMsg)
deriving Repr

/-- JSON-RPC frames written to standard output by the server:
`sendResponse` and `sendError` (bridge.go:2199-2234). -/
inductive Frame where
  | response (id : GoValue) (method : String)
  | errorF (id : GoValue) (code : Int) (message : String) (data : String)
deriving Repr

/-- The marshalled `id` field of a frame built from a Go interface
value (`nil` marshals as JSON null). -/
def idVal : Option GoValue → GoValue
  | none => .vnull
  | some v => v

/-- Embedding of `handleMessage` (bridge.go:2065-2106), returning the
frames this line causes on standard output.  Unparseable JSON returns
the error to the caller without sending anything; a bad `Request` shape
sends `-32700` with the raw message's id; the `initialized`
notification is silent; any other message without an id is answered
with `-32600` under the numeric id `1`; known methods dispatch to their
handlers (abstracted as `dispatch`, since each sends frames of its
own); unknown methods are `-32601`. -/
def handleMessage (dispatch : ParsedMsg → List Frame) (line : InLine) : List Frame :=
  match line with
  | .notJson => []
  | .badShape rid errText => [.errorF (idVal rid) (-32700) "Parse error" errText]
  | .ok m =>
      if m.method = "initialized" then []
      else if m.id.isNone then
        [.errorF (.vint 1) (-32600) "Invalid request" "Missing ID for request"]
      else if m.method = "initialize" ∨ m.method = "tools/list" ∨
              m.method = "tools/call" ∨ m.method = "ping" then
        dispatch m
      else [.errorF (idVal m.id) (-32601) "Method not found" m.method]

/-- A dispatch that sends nothing, used to instantiate theorems about
paths of `handleMessage` that never reach the method handlers. -/
def noDispatch : ParsedMsg → List Frame := fun _ => []

/-!
Stub server of the CSRF scenario (spec §8 scenario 5 / claim C2): the
`Fetch` GET is answered `200` with token header `ABC`; the first POST
is answered `403` with a body containing `CSRF token validation
failed`; the second POST is answered `201`.  The server state counts
the POSTs received. -/

/-- Transition function of the scenario's stub server. -/
def stubServer (n : Nat) (req : HttpRequest) : Nat × HttpResponse :=
  if req.method = "GET" ∧ req.csrfHeader = some "Fetch" then
    (n, { status := 200, csrfHeader := some "ABC", body := "" })
  else if req.method = "POST" then
    if n = 0 then
      (n + 1, { status := 403, csrfHeader := none, body := "CSRF token validation failed" })
    else (n + 1, { status := 201, csrfHeader := none, body := "" })
  else (n, { status := 200, csrfHeader := none, body := "" })

/-- The scenario run: a create call against the stub server starting
from a token-less client and an empty trace. -/
def csrfScenario : World Nat × Except String HttpResponse :=
  CreateEntity stubServer { client := {}, server := 0, trace := [] }
    "Products" [("Name", .vstr "X")]

/-- Token-fetch GETs in a trace. -/
def isFetchGet (r : HttpRequest) : Bool := r.method = "GET" && r.csrfHeader = some "Fetch"

/-- POSTs in a trace. -/
def isPost (r : HttpRequest) : Bool := r.method = "POST"

/-!
Theorems.  Helper lemmas come first; the claim theorems follow, one per
claim, each under a doc comment naming the claim.
-/

theorem convertToString_vstr (s : String) : ConvertToString (.vstr s) = s := rfl

mutual

theorem convMap_idem (df : List String) :
    ∀ fs, ConvertNumericFieldsToStrings df (ConvertNumericFieldsToStrings df fs) =
      ConvertNumericFieldsToStrings df fs
  | [] => by simp [ConvertNumericFieldsToStrings]
  | (k, v) :: rest => by
      by_cases h : (inDecimalFieldSet df k || IsLikelyDecimalField k) = true
      · simp [ConvertNumericFieldsToStrings, h, convertToString_vstr,
          convMap_idem df rest]
      · simp [ConvertNumericFieldsToStrings, h, convVal_idem df v,
          convMap_idem df rest]
termination_by fs => sizeOf fs
decreasing_by all_goals (simp_wf <;> omega)

theorem convVal_idem (df : List String) :
    ∀ v, ConvertNumericValue df (ConvertNumericValue df v) = ConvertNumericValue df v
  | .vnull => by simp [ConvertNumericValue]
  | .vbool _ => by simp [ConvertNumericValue]
  | .vint _ => by simp [ConvertNumericValue]
  | .vnum _ _ => by simp [ConvertNumericValue]
  | .vstr _ => by simp [ConvertNumericValue]
  | .vobj fs => by simp [ConvertNumericValue, convMap_idem df fs]
  | .varr xs => by simp [ConvertNumericValue, convList_idem df xs]
termination_by v => sizeOf v
decreasing_by all_goals (simp_wf <;> omega)

theorem convList_idem (df : List String) :
    ∀ xs, ConvertNumericList df (ConvertNumericList df xs) = ConvertNumericList df xs
  | [] => by simp [ConvertNumericList]
  | .vobj fs :: rest => by
      simp [ConvertNumericList, convMap_idem df fs, convList_idem df rest]
  | .vnull :: rest => by
      simp [ConvertNumericList, ConvertNumericValue, convList_idem df rest]
  | .vbool _ :: rest => by
      simp [ConvertNumericList, ConvertNumericValue, convList_idem df rest]
  | .vint _ :: rest => by
      simp [ConvertNumericList, ConvertNumericValue, convList_idem df rest]
  | .vnum _ _ :: rest => by
      simp [ConvertNumericList, ConvertNumericValue, convList_idem df rest]
  | .vstr _ :: rest => by
      simp [ConvertNumericList, ConvertNumericValue, convList_idem df rest]
  | .varr xs :: rest => by
      simp [ConvertNumericList, ConvertNumericValue, convList_idem df xs,
        convList_idem df rest]
termination_by xs => sizeOf xs
decreasing_by all_goals (simp_wf <;> omega)

end

theorem digitChar_ne_slash (d : Nat) : digitChar d ≠ '/' := by
  unfold digitChar
  split <;> decide

theorem natDigitsAux_mem (fuel : Nat) :
    ∀ (n : Nat) (acc : List Char), ∀ c ∈ natDigitsAux fuel n acc,
      c ∈ acc ∨ ∃ d, c = digitChar d := by
  induction fuel with
  | zero => intro n acc c hc; exact Or.inl (by simpa [natDigitsAux] using hc)
  | succ f ih =>
      intro n acc c hc
      unfold natDigitsAux at hc
      split at hc
      · exact Or.inl hc
      · rcases ih (n / 10) (digitChar (n % 10) :: acc) c hc with hmem | hd
        · rcases List.mem_cons.mp hmem with he | ha
          · exact Or.inr ⟨n % 10, he⟩
          · exact Or.inl ha
        · exact Or.inr hd

theorem natDigitsAux_len (fuel : Nat) :
    ∀ (n : Nat) (acc : List Char), acc.length ≤ (natDigitsAux fuel n acc).length := by
  induction fuel with
  | zero => intro n acc; simp [natDigitsAux]
  | succ f ih =>
      intro n acc
      unfold natDigitsAux
      split
      · exact le_refl _
      · calc acc.length ≤ (digitChar (n % 10) :: acc).length := by simp
          _ ≤ _ := ih (n / 10) (digitChar (n % 10) :: acc)

theorem natDigits_ne_nil (n : Nat) : natDigits n ≠ [] := by
  unfold natDigits
  split
  · simp
  · rename_i hn
    unfold natDigitsAux
    rw [if_neg hn]
    intro hcontra
    have := natDigitsAux_len n (n / 10) (digitChar (n % 10) :: [])
    rw [hcontra] at this
    simp at this

theorem natDigits_mem (n : Nat) : ∀ c ∈ natDigits n, ∃ d, c = digitChar d := by
  intro c hc
  unfold natDigits at hc
  split at hc
  · exact ⟨0, by simpa [digitChar] using hc⟩
  · rcases natDigitsAux_mem (n + 1) n [] c hc with h | h
    · simp at h
    · exact h

theorem padZeros_mem (w : Nat) (ds : List Char) :
    ∀ c ∈ padZeros w ds, c = '0' ∨ c ∈ ds := by
  intro c hc
  unfold padZeros at hc
  rcases List.mem_append.mp hc with h | h
  · exact Or.inl (List.eq_of_mem_replicate h)
  · exact Or.inr h

theorem padZeros_ne_nil (w : Nat) (ds : List Char) (h : ds ≠ []) :
    padZeros w ds ≠ [] := by
  unfold padZeros
  simp [h]

theorem yearChars_head (y : Int) :
    ∃ c l, yearChars y = c :: l ∧ c ≠ '/' := by
  unfold yearChars
  split
  · exact ⟨'-', _, rfl, by decide⟩
  · have hne := padZeros_ne_nil 4 (natDigits y.natAbs) (natDigits_ne_nil _)
    rcases List.exists_cons_of_ne_nil hne with ⟨c, l, hcl⟩
    refine ⟨c, l, hcl, ?_⟩
    have hmem : c ∈ padZeros 4 (natDigits y.natAbs) := by rw [hcl]; simp
    rcases padZeros_mem 4 _ c hmem with h0 | hds
    · rw [h0]; decide
    · rcases natDigits_mem _ c hds with ⟨d, hd⟩
      rw [hd]; exact digitChar_ne_slash d

theorem isoChars_head (ms : Int) :
    ∃ c l, isoChars ms = c :: l ∧ c ≠ '/' := by
  rcases yearChars_head (civilFromDays (isoDays ms)).1 with ⟨c, l, hcl, hc⟩
  refine ⟨c, l ++ ('-' :: pad2 (civilFromDays (isoDays ms)).2.1 ++
    '-' :: pad2 (civilFromDays (isoDays ms)).2.2 ++
    'T' :: pad2 (isoSod ms / 3600) ++
    ':' :: pad2 (isoSod ms % 3600 / 60) ++
    ':' :: pad2 (isoSod ms % 60) ++
    (if isoMsRem ms = 0 then [] else '.' :: pad3 (isoMsRem ms)) ++ ['Z']), ?_, hc⟩
  unfold isoChars
  rw [hcl]
  simp

theorem chStarts_legacy_false (c : Char) (l : List Char) (h : c ≠ '/') :
    chStarts ['/', 'D', 'a', 't', 'e', '('] (c :: l) = false := by
  have : ('/' : Char) ≠ c := fun hh => h hh.symm
  simp [chStarts, this]

theorem legacyParse_iso_none (ms : Int) :
    legacyParse (String.mk (isoChars ms)) = none := by
  unfold legacyParse legacyParseList
  rcases isoChars_head ms with ⟨c, l, hcl, hc⟩
  show (if chStarts ['/', 'D', 'a', 't', 'e', '('] (isoChars ms) = true then
    parseLegacyInner ((isoChars ms).drop 6) else none) = none
  rw [hcl, chStarts_legacy_false c l hc]
  simp

theorem ConvertODataLegacyToISO_idem (s : String) :
    ConvertODataLegacyToISO (ConvertODataLegacyToISO s) = ConvertODataLegacyToISO s := by
  cases h : legacyParse s with
  | none => simp [ConvertODataLegacyToISO, h]
  | some ms => simp [ConvertODataLegacyToISO, h, legacyParse_iso_none ms]

mutual

theorem convDatesVal_idem :
    ∀ v, ConvertDatesInValue (ConvertDatesInValue v) = ConvertDatesInValue v
  | .vnull => by simp [ConvertDatesInValue]
  | .vbool _ => by simp [ConvertDatesInValue]
  | .vint _ => by simp [ConvertDatesInValue]
  | .vnum _ _ => by simp [ConvertDatesInValue]
  | .vstr s => by simp [ConvertDatesInValue, ConvertODataLegacyToISO_idem s]
  | .vobj fs => by simp [ConvertDatesInValue, convDatesFields_idem fs]
  | .varr xs => by simp [ConvertDatesInValue, convDatesList_idem xs]
termination_by v => sizeOf v
decreasing_by all_goals (simp_wf <;> omega)

theorem convDatesFields_idem :
    ∀ fs, ConvertDatesInFields (ConvertDatesInFields fs) = ConvertDatesInFields fs
  | [] => by simp [ConvertDatesInFields]
  | (k, v) :: rest => by
      simp [ConvertDatesInFields, convDatesVal_idem v, convDatesFields_idem rest]
termination_by fs => sizeOf fs
decreasing_by all_goals (simp_wf <;> omega)

theorem convDatesList_idem :
    ∀ xs, ConvertDatesInList (ConvertDatesInList xs) = ConvertDatesInList xs
  | [] => by simp [ConvertDatesInList]
  | x :: rest => by
      simp [ConvertDatesInList, convDatesVal_idem x, convDatesList_idem rest]
termination_by xs => sizeOf xs
decreasing_by all_goals (simp_wf <;> omega)

end

theorem categorizeError_default (err tool : String)
    (h : categorizePatternFree err = true) : (categorizeError err tool).1 = -32603 := by
  rw [categorizePatternFree, Bool.not_eq_true'] at h
  simp only [Bool.or_eq_false_iff] at h
  simp [categorizeError, h]

theorem getKeysFromArgs_missing (args : List (String × GoValue)) (kp : String)
    (post : List String) :
    ∀ pre : List String, (∀ p ∈ pre, (GoValue.lookupField args p).isSome = true) →
      GoValue.lookupField args kp = none →
      getKeysFromArgs (pre ++ kp :: post) args = .error (missingKeyMsg kp)
  | [], _, hmiss => by simp [getKeysFromArgs, hmiss]
  | p :: pre, hpre, hmiss => by
      have hp := hpre p (List.mem_cons_self p pre)
      rcases Option.isSome_iff_exists.mp hp with ⟨v, hv⟩
      have ih := getKeysFromArgs_missing args kp post pre
        (fun q hq => hpre q (List.mem_cons_of_mem p hq)) hmiss
      simp [getKeysFromArgs, hv, ih]

theorem lookupField_filter (qk : String → Bool) (p : String)
    (args : List (String × GoValue)) :
    GoValue.lookupField (args.filter fun e => qk e.1) p =
      if qk p then GoValue.lookupField args p else none := by
  induction args with
  | nil => simp [GoValue.lookupField]
  | cons a rest ih =>
      obtain ⟨k, v⟩ := a
      by_cases hq : qk k
      · by_cases hk : k = p
        · subst hk
          simp [GoValue.lookupField, hq, List.filter_cons, ih]
        · simp [GoValue.lookupField, hq, hk, List.filter_cons, ih]
      · by_cases hk : k = p
        · subst hk
          simp [GoValue.lookupField, hq, List.filter_cons, ih]
        · simp [GoValue.lookupField, hq, hk, List.filter_cons, ih]

theorem firstMissingKey_first (key : List (String × GoValue)) (kp : String)
    (post : List String) :
    ∀ pre : List String, (∀ p ∈ pre, (GoValue.lookupField key p).isSome = true) →
      GoValue.lookupField key kp = none →
      firstMissingKey (pre ++ kp :: post) key = some kp
  | [], _, hmiss => by simp [firstMissingKey, hmiss]
  | p :: pre, hpre, hmiss => by
      have hp := hpre p (List.mem_cons_self p pre)
      have ih := firstMissingKey_first key kp post pre
        (fun q hq => hpre q (List.mem_cons_of_mem p hq)) hmiss
      simp [firstMissingKey, hp, ih]

/-- C9: the numeric-to-string map conversion is idempotent — for every
JSON-like map and decimal-field list, applying
`ConvertNumericFieldsToStrings` twice equals applying it once — and the
analogous idempotence holds for the (spec-modelled) recursive date
conversion. -/
theorem claim_C9_conversions_idempotent :
    (∀ (d : List String) (m : List (String × GoValue)),
      ConvertNumericFieldsToStrings d (ConvertNumericFieldsToStrings d m) =
        ConvertNumericFieldsToStrings d m) ∧
    (∀ v : GoValue, ConvertDatesInValue (ConvertDatesInValue v) = ConvertDatesInValue v) :=
  ⟨fun d m => convMap_idem d m, fun v => convDatesVal_idem v⟩

/-- C3 (code bug): invoking a create tool with
`ProductID="HT-1", Quantity=1, Price=19.99, Description="x"` marshals
`Quantity` and `Price` into the outbound body as JSON *numbers* — no
coercion is applied anywhere on the create path — although the
repository's own `ConvertNumericFieldsToStrings` (documented in
SAP_NUMERIC_HANDLING.md as applied on create/update) would have
produced the strings `"1"` and `"19.99"` the claim requires. -/
theorem claim_C3_create_payload_not_coerced :
    outboundCreateBody
        [("ProductID", .vstr "HT-1"), ("Quantity", .vnum 1 0),
         ("Price", .vnum 1999 2), ("Description", .vstr "x")] =
      .vobj [("Description", .vstr "x"), ("Price", .vnum 1999 2),
             ("ProductID", .vstr "HT-1"), ("Quantity", .vnum 1 0)] ∧
    ConvertNumericFieldsToStrings []
        [("ProductID", .vstr "HT-1"), ("Quantity", .vnum 1 0),
         ("Price", .vnum 1999 2), ("Description", .vstr "x")] =
      [("ProductID", .vstr "HT-1"), ("Quantity", .vstr "1"),
       ("Price", .vstr "19.99"), ("Description", .vstr "x")] := by
  constructor
  · rfl
  · simp [ConvertNumericFieldsToStrings, ConvertNumericValue,
      show IsLikelyDecimalField "ProductID" = false from rfl,
      show IsLikelyDecimalField "Quantity" = true from rfl,
      show IsLikelyDecimalField "Price" = true from rfl,
      show IsLikelyDecimalField "Description" = false from rfl,
      show inDecimalFieldSet [] "ProductID" = false from rfl,
      show inDecimalFieldSet [] "Quantity" = false from rfl,
      show inDecimalFieldSet [] "Price" = false from rfl,
      show inDecimalFieldSet [] "Description" = false from rfl,
      show ConvertToString (.vnum 1 0) = "1" from rfl,
      show ConvertToString (.vnum 1999 2) = "19.99" from rfl]

/-- C4 (code bug): with legacy-dates mode on (the default), a
successful response whose `d` payload carries the legacy string
`/Date(1735125000000)/` is handed back by `parseODataResponse` with
that string byte-for-byte unchanged — no date rewriting exists on the
response path — although the (spec-modelled) conversion maps it to the
distinct ISO-8601 UTC instant `2024-12-25T11:10:00Z`. -/
theorem claim_C4_legacy_dates_not_rewritten :
    parseODataResponse 200
        (.json (.vobj [("d",
          .vobj [("Name", .vstr "x"),
                 ("CreatedAt", .vstr "/Date(1735125000000)/")])])) =
      .ok { value := some (.vobj [("Name", .vstr "x"),
            ("CreatedAt", .vstr "/Date(1735125000000)/")]) } ∧
    ConvertDatesInValue (.vobj [("Name", .vstr "x"),
        ("CreatedAt", .vstr "/Date(1735125000000)/")]) =
      .vobj [("Name", .vstr "x"), ("CreatedAt", .vstr "2024-12-25T11:10:00Z")] ∧
    ("2024-12-25T11:10:00Z" : String) ≠ "/Date(1735125000000)/" := by
  refine ⟨rfl, ?_, by decide⟩
  simp [ConvertDatesInValue, ConvertDatesInFields,
    show ConvertODataLegacyToISO "x" = "x" from rfl,
    show ConvertODataLegacyToISO "/Date(1735125000000)/" = "2024-12-25T11:10:00Z" from
      rfl]

/-- C8 (code bug): when an entity set's referenced entity type is
missing from the schema and verbose mode is on, the diagnostic note is
written to *standard output* (`fmt.Printf`), not standard error, and
its text is not a JSON-RPC frame (it does not even start with a brace
as every `sendResponse`/`sendError` frame does). -/
theorem claim_C8_verbose_note_to_stdout :
    generateEntitySetToolsConsole true ["Product"] "Orders" "Order" =
      [.stdoutW "[VERBOSE] Entity type not found for entity set Orders: Order\n"] ∧
    strStarts "[VERBOSE] Entity type not found for entity set Orders: Order\n"
      "\x7b" = false :=
  ⟨rfl, by decide⟩

/-- C7 counterexample: a stdin line that is not parseable as JSON
causes the server to emit *nothing* (`handleMessage` returns the parse
error to its caller, which discards it), not the single `-32700`
response with id null that the claim requires. -/
theorem claim_C7_counterexample :
    handleMessage noDispatch .notJson = [] ∧
    (handleMessage noDispatch .notJson).length ≠ 1 :=
  ⟨rfl, by decide⟩

/-- C7 (amended): an unparseable stdin line produces no output frame at
all; a line that is valid JSON but does not decode into the `Request`
struct produces exactly one `-32700` error frame carrying the raw
message's id (JSON null when absent). -/
theorem claim_C7_amended (dispatch : ParsedMsg → List Frame) (rid : Option GoValue)
    (errText : String) :
    handleMessage dispatch .notJson = [] ∧
    handleMessage dispatch (.badShape rid errText) =
      [.errorF (idVal rid) (-32700) "Parse error" errText] :=
  ⟨rfl, rfl⟩

/-- C10: every parsed message whose method is not `initialized` and
whose id is absent or null is answered with a single `-32600` error
response whose id field is the number 1, regardless of what the method
handlers would do — so every MCP notification other than `initialized`
provokes an error response instead of being ignored. -/
theorem claim_C10_idless_message_gets_error_id1 (dispatch : ParsedMsg → List Frame)
    (m : ParsedMsg) (hm : m.method ≠ "initialized") (hid : m.id = none) :
    handleMessage dispatch (.ok m) =
      [.errorF (.vint 1) (-32600) "Invalid request" "Missing ID for request"] := by
  simp [handleMessage, hm, hid]

/-- Witness for C10 at the concrete notification
`notifications/cancelled` with no id. -/
theorem claim_C10_witness :
    (("notifications/cancelled" : String) ≠ "initialized") ∧
    handleMessage noDispatch
        (.ok { method := "notifications/cancelled", id := none }) =
      [.errorF (.vint 1) (-32600) "Invalid request" "Missing ID for request"] :=
  ⟨by decide,
    claim_C10_idless_message_gets_error_id1 noDispatch
      { method := "notifications/cancelled", id := none } (by decide) rfl⟩

/-- C2 counterexample: in the spec's stub-server scenario the client
issues *two* token-fetch GETs, not the exactly one the claim states
(`CreateEntity` always fetches a fresh token up front, and the
CSRF-retry path fetches again). -/
theorem claim_C2_counterexample :
    (csrfScenario.1.trace.filter isFetchGet).length = 2 ∧
    ¬ ((csrfScenario.1.trace.filter isFetchGet).length = 1) := by
  decide

/-- C2 (amended): in the stub-server scenario the bridge issues exactly
two token-fetch GETs and exactly two POSTs; both POSTs (in particular
the second) carry `X-CSRF-Token: ABC`, and the call ends in the 201
response. -/
theorem claim_C2_amended :
    (csrfScenario.1.trace.filter isFetchGet).length = 2 ∧
    (csrfScenario.1.trace.filter isPost).length = 2 ∧
    ((csrfScenario.1.trace.filter isPost).map fun r => r.csrfHeader) =
      [some "ABC", some "ABC"] ∧
    (csrfScenario.2.toOption.map fun r => r.status) = some 201 :=
  ⟨by decide, by decide, by decide, rfl⟩

/-- C1: for every response with status < 400 whose body is
`\x7b"d": \x7b"results": [e1..en], "__count": "N"\x7d\x7d`, the parser returns a
normalized response whose value is exactly the entity list in order and
whose count is the integer N; without `__count` no count is set; and a
`d` payload without a `results` array is returned as a single entity in
`value`. -/
theorem claim_C1_v2_response_normalization (status : Nat) (es : List GoValue)
    (c : String) (n : Int) (fs : List (String × GoValue))
    (hst : status < 400) (hc : goSscanfD c = some n) (hc0 : c ≠ "")
    (hnores : GoValue.lookupField fs "results" = none) :
    parseODataResponse status
        (.json (.vobj [("d",
          .vobj [("results", .varr es), ("__count", .vstr c)])])) =
      .ok { value := some (.varr es), count := some n } ∧
    parseODataResponse status (.json (.vobj [("d", .vobj [("results", .varr es)])])) =
      .ok { value := some (.varr es) } ∧
    parseODataResponse status (.json (.vobj [("d", .vobj fs)])) =
      .ok { value := some (.vobj fs) } := by
  have h4 : ¬ (status ≥ 400) := by omega
  refine ⟨?_, ?_, ?_⟩ <;>
    simp [parseODataResponse, h4, GoValue.lookupField, hnores, hc, hc0]

/-- Witness for C1: a two-entity collection counted "9", and a `d`
payload without results. -/
theorem claim_C1_witness :
    ((200 : Nat) < 400 ∧ goSscanfD "9" = some 9 ∧ ("9" : String) ≠ "" ∧
      GoValue.lookupField [("Name", GoValue.vstr "Bread")] "results" = none) ∧
    parseODataResponse 200
        (.json (.vobj [("d",
          .vobj [("results", .varr [.vstr "a", .vstr "b"]),
                 ("__count", .vstr "9")])])) =
      .ok { value := some (.varr [.vstr "a", .vstr "b"]), count := some 9 } ∧
    parseODataResponse 200
        (.json (.vobj [("d", .vobj [("Name", GoValue.vstr "Bread")])])) =
      .ok { value := some (.vobj [("Name", GoValue.vstr "Bread")]) } :=
  ⟨⟨by decide, by decide, by decide, rfl⟩,
    (claim_C1_v2_response_normalization 200 [.vstr "a", .vstr "b"] "9" 9
      [("Name", GoValue.vstr "Bread")] (by decide) (by decide) (by decide) rfl).1,
    (claim_C1_v2_response_normalization 200 [.vstr "a", .vstr "b"] "9" 9
      [("Name", GoValue.vstr "Bread")] (by decide) (by decide) (by decide) rfl).2.2⟩

/-- C5 counterexample: the composite-key predicate is built by
iterating a Go map, whose iteration order is unspecified; for the
schema key list `[KeyA, KeyB]` there is a legal iteration order (a
permutation of the entries) on which the rendered predicate is
`KeyB=2,KeyA=1`, not the schema-ordered `KeyA=1,KeyB=2` the claim
requires for every execution. -/
theorem claim_C5_counterexample :
    ¬ (∀ es : List (String × GoValue),
        es.Perm [("KeyA", GoValue.vint 1), ("KeyB", GoValue.vint 2)] →
        buildKeyPredicate es = "KeyA=1,KeyB=2") := by
  intro h
  have hperm : ([("KeyB", GoValue.vint 2), ("KeyA", GoValue.vint 1)]).Perm
      [("KeyA", GoValue.vint 1), ("KeyB", GoValue.vint 2)] :=
    List.Perm.swap ("KeyA", GoValue.vint 1) ("KeyB", GoValue.vint 2) []
  have h2 := h [("KeyB", GoValue.vint 2), ("KeyA", GoValue.vint 1)] hperm
  have h3 : buildKeyPredicate [("KeyB", GoValue.vint 2), ("KeyA", GoValue.vint 1)] =
      "KeyB=2,KeyA=1" := rfl
  rw [h3] at h2
  exact absurd h2 (by decide)

/-- C5 (amended): a single-key predicate renders as `'<value>'` for
strings and as the bare literal for integers and booleans; a
composite-key predicate renders as the comma-joined `name=value` pairs
*in Go-map iteration order*, an unspecified permutation of the entries
that need not follow the schema's key list. -/
theorem claim_C5_amended :
    (∀ (k s : String), buildKeyPredicate [(k, .vstr s)] = "'" ++ s ++ "'") ∧
    (∀ (k : String) (i : Int), buildKeyPredicate [(k, .vint i)] = intStr i) ∧
    (∀ (k : String) (b : Bool),
      buildKeyPredicate [(k, .vbool b)] = if b then "true" else "false") ∧
    (∀ es : List (String × GoValue), es.length ≠ 1 →
      buildKeyPredicate es =
        String.intercalate "," (es.map fun p => p.1 ++ "=" ++ formatKeyValue p.2)) := by
  refine ⟨fun k s => rfl, fun k i => rfl, fun k b => rfl, fun es h => ?_⟩
  match es, h with
  | [], _ => rfl
  | [x], h => exact absurd rfl h
  | x :: y :: rest, _ => rfl

/-- Witness for C5 (amended) at the composite key of the spec's
`MERGE /Items(OrderID=10,Position='0010')` example, in schema order. -/
theorem claim_C5_amended_witness :
    (([("OrderID", GoValue.vint 10), ("Position", GoValue.vstr "0010")] :
        List (String × GoValue)).length ≠ 1) ∧
    buildKeyPredicate [("OrderID", GoValue.vint 10), ("Position", GoValue.vstr "0010")] =
      "OrderID=10,Position='0010'" := by
  refine ⟨by decide, ?_⟩
  rw [claim_C5_amended.2.2.2 _ (by decide)]
  rfl

/-- C6 counterexample: a get call missing the single key property `ID`
fails before any request with the deterministic message, but
`categorizeError` sends it to the MCP client as `-32603` (its default
branch), not the `-32602` the claim states. -/
theorem claim_C6_counterexample :
    handleEntityGetRequest "Products" ["ID"] [] = .error (missingKeyMsg "ID") ∧
    (categorizeError (missingKeyMsg "ID") "get_Products").1 = -32603 ∧
    ((-32603 : Int) ≠ -32602) :=
  ⟨rfl, by decide, by decide⟩

/-- C6 (amended): a get/update/delete call missing a key property, or a
function-import call missing a non-nullable parameter, fails before any
HTTP request with a deterministic message naming the missing property;
for property names free of `categorizeError`'s patterns the call is
reported as `-32603` (internal error), not `-32602`. -/
theorem claim_C6_validation_fails_fast (esName tool : String)
    (pre post : List String) (kp : String) (args : List (String × GoValue))
    (hpre : ∀ p ∈ pre, (GoValue.lookupField args p).isSome = true ∧ p ≠ "_method")
    (hmiss : GoValue.lookupField args kp = none)
    (hfree1 : categorizePatternFree (missingKeyMsg kp) = true)
    (hfree2 : categorizePatternFree ("missing required parameter: " ++ kp) = true) :
    handleEntityGetRequest esName (pre ++ kp :: post) args = .error (missingKeyMsg kp) ∧
    handleEntityUpdateCheck (pre ++ kp :: post) args = .error (missingKeyMsg kp) ∧
    collectFunctionParams [⟨kp, "In", false⟩] args =
      .error ("missing required parameter: " ++ kp) ∧
    (categorizeError (missingKeyMsg kp) tool).1 = -32603 ∧
    (categorizeError ("missing required parameter: " ++ kp) tool).1 = -32603 := by
  have hget := getKeysFromArgs_missing args kp post pre (fun p hp => (hpre p hp).1) hmiss
  refine ⟨?_, ?_, ?_, categorizeError_default _ tool hfree1,
    categorizeError_default _ tool hfree2⟩
  · simp [handleEntityGetRequest, hget]
  · have hkey : ∀ p ∈ pre,
        (GoValue.lookupField
          (args.filter fun e => updateKeyOk (pre ++ kp :: post) e.1) p).isSome =
          true := by
      intro p hp
      rw [lookupField_filter (updateKeyOk (pre ++ kp :: post)) p args]
      simp [updateKeyOk, hp, (hpre p hp).2, (hpre p hp).1]
    have hkeymiss :
        GoValue.lookupField
          (args.filter fun e => updateKeyOk (pre ++ kp :: post) e.1) kp = none := by
      rw [lookupField_filter (updateKeyOk (pre ++ kp :: post)) kp args]
      split <;> simp [hmiss]
    have hfirst := firstMissingKey_first _ kp post pre hkey hkeymiss
    simp [handleEntityUpdateCheck, hfirst]
  · simp [collectFunctionParams, hmiss]

/-- Witness for C6 (amended): entity set `Products` with key list
`[ID]` and empty arguments. -/
theorem claim_C6_witness :
    ((∀ p ∈ ([] : List String),
        (GoValue.lookupField ([] : List (String × GoValue)) p).isSome = true ∧
        p ≠ "_method") ∧
      GoValue.lookupField ([] : List (String × GoValue)) "ID" = none ∧
      categorizePatternFree (missingKeyMsg "ID") = true ∧
      categorizePatternFree ("missing required parameter: " ++ "ID") = true) ∧
    handleEntityGetRequest "Products" ([] ++ "ID" :: []) [] =
      .error (missingKeyMsg "ID") ∧
    (categorizeError (missingKeyMsg "ID") "get_Products").1 = -32603 :=
  ⟨⟨by simp, rfl, by decide, by decide⟩,
    (claim_C6_validation_fails_fast "Products" "get_Products" [] [] "ID" []
      (by simp) rfl (by decide) (by decide)).1,
    (claim_C6_validation_fails_fast "Products" "get_Products" [] [] "ID" []
      (by simp) rfl (by decide) (by decide)).2.2.2.1⟩
